import Mathlib

/-!
Shallow embedding of the canvas-recording page (`src/unnamed/part_000`):
a React component that animates a canvas and records it with a
MediaRecorder into a downloadable WebM file.  The record handler
`handleRecord` is modelled as a pure function from an environment
(browser capabilities, exceptions raised by browser calls, chunk events
emitted by the recorder, clock values) and the user configuration to the
trace of effects it performs (state updates, canvas sizing, stream
capture, recorder start/stop, timer wait, blob assembly).
-/

namespace CanvasRec

/-- `const WIDTH = 1280` (line 6). -/
def WIDTH : Nat := 1280

/-- `const HEIGHT = 720` (line 7). -/
def HEIGHT : Nat := 720

/-- The two themes `"electric" | "sunset"` (line 138). -/
inductive Theme where
  | electric
  | sunset
deriving DecidableEq, Repr

/-- The UI state union type `RecordingState` (lines 9-14). -/
inductive RecordingState where
  | idle
  | recording (startedAt : ℚ)
  | processing
  | done (url : String) (size : Nat) (fileName : String) (durationMs : ℤ)
  | error (message : String)
deriving DecidableEq, Repr

/-- The user-settable inputs of the page: `title`, `subtitle`,
`durationSec`, `fps`, `theme` (lines 134-138).  There is no bitrate
input. -/
structure Config where
  title : String
  subtitle : String
  durationSec : ℚ
  fps : Nat
  theme : Theme
deriving DecidableEq, Repr

/-- The `min={2}` attribute of the duration input (line 244). -/
def durationInputMin : Nat := 2

/-- The `max={60}` attribute of the duration input (line 245). -/
def durationInputMax : Nat := 60

/-- The options of the frame-rate select (lines 253-257). -/
def fpsOptions : List Nat := [24, 25, 30, 50, 60]

/-- `const durationMs = Math.max(1000, Math.round(durationSec * 1000))`
(line 175).  JavaScript `Math.round` rounds half toward positive
infinity, which is Mathlib's `round` on `ℚ`. -/
def durationMs (durationSec : ℚ) : ℤ :=
  max 1000 (round (durationSec * 1000))

/-- The file name built at lines 176-179:
`"youtube-720p-" + new Date().toISOString().replaceAll(":", "-").replaceAll(".", "-") + ".webm"`. -/
def mkFileName (iso : String) : String :=
  "youtube-720p-" ++ ((iso.replace ":" "-").replace "." "-") ++ ".webm"

/-- The `ondataavailable` handler (lines 181-185): push the chunk onto
the buffer only when `e.data.size > 0`.  Chunks are represented by
their sizes. -/
def ondataavailable (buf : List Nat) (size : Nat) : List Nat :=
  if size > 0 then buf ++ [size] else buf

/-- Delivering a sequence of data-available events to the handler. -/
def pushChunks (buf : List Nat) (events : List Nat) : List Nat :=
  events.foldl ondataavailable buf

/-- The `supported` memo (lines 144-151): pick the first supported MIME
type among vp9, vp8, plain webm; `null` when `window` or
`MediaRecorder` is undefined or none of the three is supported. -/
def supported (hasWindow hasMediaRecorder : Bool) (isTypeSupported : String → Bool) :
    Option String :=
  if hasWindow = false || hasMediaRecorder = false then none
  else if isTypeSupported "video/webm;codecs=vp9,opus" then some "video/webm;codecs=vp9,opus"
  else if isTypeSupported "video/webm;codecs=vp8,opus" then some "video/webm;codecs=vp8,opus"
  else if isTypeSupported "video/webm" then some "video/webm"
  else none

/-- The options record passed to `new MediaRecorder` (lines 169-172). -/
structure RecorderOptions where
  mimeType : String
  videoBitsPerSecond : Nat
deriving DecidableEq, Repr

/-- The `reset` callback (lines 215-219): state back to idle and the
chunk buffer cleared. -/
def reset : RecordingState × List Nat :=
  (RecordingState.idle, [])

/-- Observable effects performed by `handleRecord`, in program order. -/
inductive Effect where
  | setState (s : RecordingState)
  | setCanvasSize (w h : Nat)
  | captureStream (fps : Nat)
  | clearChunks
  | newRecorder (opts : RecorderOptions)
  | recorderStart (timesliceMs : Nat)
  | animStart (durMs : ℤ)
  | timerWait (ms : ℤ)
  | recorderStop
  | animStop
  | makeBlob (chunkSizes : List Nat) (mime : String)
deriving DecidableEq, Repr

/-- The environment a run of `handleRecord` observes: the memoised
`supported` value, whether `canvasRef.current` is non-null, whether
`canvas.captureStream` exists, whether `new MediaRecorder` or
`recorder.start` throw (carrying the exception's optional `message`),
the ISO timestamp of `new Date()`, `performance.now()` at start, the
object URL produced for the blob, and the sizes of the data-available
events the recorder delivers before the blob is assembled. -/
structure Env where
  supported : Option String
  canvasPresent : Bool
  nullCanvasMsg : Option String
  captureOk : Bool
  recorderCtorThrow : Option (Option String)
  recorderStartThrow : Option (Option String)
  nowIso : String
  startedAt : ℚ
  objectUrl : String
  chunkEvents : List Nat
deriving DecidableEq, Repr

/-- The effect trace of a fully successful run of `handleRecord`
(lines 159-209), in source order. -/
def fullTrace (env : Env) (cfg : Config) (mime : String) : List Effect :=
  [Effect.setCanvasSize WIDTH HEIGHT,
   Effect.captureStream cfg.fps,
   Effect.clearChunks,
   Effect.newRecorder ⟨mime, 4000000⟩,
   Effect.setState (RecordingState.recording env.startedAt),
   Effect.recorderStart 100,
   Effect.animStart (durationMs cfg.durationSec),
   Effect.timerWait (durationMs cfg.durationSec),
   Effect.recorderStop,
   Effect.animStop,
   Effect.setState RecordingState.processing,
   Effect.makeBlob (pushChunks [] env.chunkEvents) mime,
   Effect.setState (RecordingState.done env.objectUrl (pushChunks [] env.chunkEvents).sum
     (mkFileName env.nowIso) (durationMs cfg.durationSec))]

/-- The body of the `try` block of `handleRecord` (lines 154-209):
the effects performed, paired with `some m` when the body raises an
exception whose `message` is `m` (caught by the surrounding catch), or
`none` when it returns normally.
* `supported` null: set the error state and return (lines 155-158);
* `canvasRef.current` null: `canvas.width = WIDTH` throws before any
  effect (lines 159-161);
* `captureStream` missing: the optional call yields `undefined`, set
  the error state and return (lines 163-167);
* otherwise clear the chunk buffer, construct and start the recorder,
  drive the animation, wait out the duration, stop recorder and
  animation, and assemble the blob (lines 168-209). -/
def tryBody (env : Env) (cfg : Config) : List Effect × Option (Option String) :=
  match env.supported with
  | none =>
      ([Effect.setState (RecordingState.error "MediaRecorder not supported in this browser.")],
       none)
  | some mime =>
      if env.canvasPresent = false then
        ([], some env.nullCanvasMsg)
      else if env.captureOk = false then
        ([Effect.setCanvasSize WIDTH HEIGHT,
          Effect.setState (RecordingState.error "Canvas captureStream not supported.")],
         none)
      else
        match env.recorderCtorThrow with
        | some m =>
            ([Effect.setCanvasSize WIDTH HEIGHT, Effect.captureStream cfg.fps,
              Effect.clearChunks],
             some m)
        | none =>
            match env.recorderStartThrow with
            | some m =>
                ([Effect.setCanvasSize WIDTH HEIGHT, Effect.captureStream cfg.fps,
                  Effect.clearChunks, Effect.newRecorder ⟨mime, 4000000⟩,
                  Effect.setState (RecordingState.recording env.startedAt)],
                 some m)
            | none => (fullTrace env cfg mime, none)

/-- `handleRecord` (lines 153-213): run the try body; a raised
exception is caught and converted into the error state with
`err?.message ?? "Recording failed."` (lines 210-212).  The function
always returns a trace: no exception escapes. -/
def handleRecord (env : Env) (cfg : Config) : List Effect :=
  match tryBody env cfg with
  | (tr, none) => tr
  | (tr, some m) =>
      tr ++ [Effect.setState (RecordingState.error (m.getD "Recording failed."))]

/-- The last UI state set by a trace, if any. -/
def lastState (tr : List Effect) : Option RecordingState :=
  tr.foldl (fun acc e => match e with | Effect.setState s => some s | _ => acc) none

/-- The sequence of UI states set by a trace, in order. -/
def stateSeq (tr : List Effect) : List RecordingState :=
  tr.filterMap fun e => match e with | Effect.setState s => some s | _ => none

/-- The options of the recorder constructed by a trace, if any. -/
def recorderOptsOf (tr : List Effect) : Option RecorderOptions :=
  tr.findSome? fun e => match e with | Effect.newRecorder o => some o | _ => none

/-- Position of each state along the linear chain
idle → recording → processing → done/error. -/
def rank : RecordingState → Nat
  | RecordingState.idle => 0
  | RecordingState.recording _ => 1
  | RecordingState.processing => 2
  | RecordingState.done _ _ _ _ => 3
  | RecordingState.error _ => 3

/-- The download anchor rendered in the done state (lines 289-293):
`href={state.url} download={state.fileName}`; no anchor otherwise. -/
def downloadAttr : RecordingState → Option (String × String)
  | RecordingState.done url _ fn _ => some (url, fn)
  | _ => none

/-! ## Helper lemmas -/

/-- Delivering events to the data-available handler preserves
positivity of all buffered chunk sizes. -/
theorem pushChunks_pos (events : List Nat) :
    ∀ buf : List Nat, (∀ c ∈ buf, 0 < c) → ∀ c ∈ pushChunks buf events, 0 < c := by
  induction events with
  | nil => intro buf h c hc; exact h c hc
  | cons e rest ih =>
      intro buf h c hc
      refine ih (ondataavailable buf e) ?_ c hc
      intro d hd
      unfold ondataavailable at hd
      by_cases he : 0 < e
      · simp [he] at hd
        rcases hd with hd | hd
        · exact h d hd
        · exact hd ▸ he
      · simp [he] at hd
        exact h d hd

/-- In a fully successful run, `handleRecord` performs exactly the
effects of `fullTrace`. -/
theorem handleRecord_success (env : Env) (cfg : Config) (mime : String)
    (h1 : env.supported = some mime) (h2 : env.canvasPresent = true)
    (h3 : env.captureOk = true) (h4 : env.recorderCtorThrow = none)
    (h5 : env.recorderStartThrow = none) :
    handleRecord env cfg = fullTrace env cfg mime := by
  unfold handleRecord tryBody
  rw [h1, h2, h3, h4, h5]
  simp

/-! ## Claims -/

/-- C9: the selected recording MIME type follows the fixed preference
order vp9 → vp8 → plain webm, and is `none` exactly when the
environment lacks `window`/`MediaRecorder` or none of the three types
is supported. -/
theorem supported_preference_order :
    ∀ (hasWindow hasMediaRecorder : Bool) (its : String → Bool),
      (supported hasWindow hasMediaRecorder its = some "video/webm;codecs=vp9,opus" ↔
        hasWindow = true ∧ hasMediaRecorder = true ∧
        its "video/webm;codecs=vp9,opus" = true) ∧
      (supported hasWindow hasMediaRecorder its = some "video/webm;codecs=vp8,opus" ↔
        hasWindow = true ∧ hasMediaRecorder = true ∧
        its "video/webm;codecs=vp9,opus" = false ∧
        its "video/webm;codecs=vp8,opus" = true) ∧
      (supported hasWindow hasMediaRecorder its = some "video/webm" ↔
        hasWindow = true ∧ hasMediaRecorder = true ∧
        its "video/webm;codecs=vp9,opus" = false ∧
        its "video/webm;codecs=vp8,opus" = false ∧
        its "video/webm" = true) ∧
      (supported hasWindow hasMediaRecorder its = none ↔
        (hasWindow = false ∨ hasMediaRecorder = false) ∨
        (its "video/webm;codecs=vp9,opus" = false ∧
         its "video/webm;codecs=vp8,opus" = false ∧
         its "video/webm" = false)) := by
  intro hw hm its
  cases hw <;> cases hm <;>
    rcases h9 : its "video/webm;codecs=vp9,opus" <;>
    rcases h8 : its "video/webm;codecs=vp8,opus" <;>
    rcases hwb : its "video/webm" <;>
    simp [supported, h9, h8, hwb]

/-- C10: the chunk buffer only ever holds chunks of positive size when
grown from the empty buffer; the buffer used for blob assembly in any
run is exactly the one grown from the empty buffer set at the start of
the recording; and `reset` clears the buffer. -/
theorem chunk_buffer_no_empty_chunks :
    (∀ (events : List Nat) (c : Nat), c ∈ pushChunks [] events → 0 < c) ∧
    reset.2 = [] ∧
    (∀ (env : Env) (cfg : Config) (ch : List Nat) (m : String),
      Effect.makeBlob ch m ∈ handleRecord env cfg → ch = pushChunks [] env.chunkEvents) := by
  refine ⟨fun events c hc => pushChunks_pos events [] (by simp) c hc, rfl, ?_⟩
  intro env cfg ch m hmem
  obtain ⟨sup, cp, ncm, cok, rct, rst, iso, sa, url, evs⟩ := env
  cases sup with
  | none => simp [handleRecord, tryBody] at hmem
  | some mime =>
      cases cp <;> cases cok <;> cases rct <;> cases rst <;>
        simp [handleRecord, tryBody, fullTrace] at hmem
      all_goals exact hmem.1

/-- C10 witness: a concrete event sequence containing empty chunks, a
member of the resulting buffer, and a concrete run whose blob is built
from the filtered buffer. -/
theorem chunk_buffer_no_empty_chunks_witness :
    0 < 5 ∧
    ([5, 3] : List Nat) = pushChunks [] [0, 5, 0, 3] :=
  ⟨chunk_buffer_no_empty_chunks.1 [0, 5, 0, 3] 5 (by decide),
   chunk_buffer_no_empty_chunks.2.2
     ⟨some "video/webm", true, none, true, none, none, "2026-01-01T00:00:00.000Z", 0,
      "blob:demo", [0, 5, 0, 3]⟩
     ⟨"t", "s", 6, 30, Theme.electric⟩ [5, 3] "video/webm"
     (by simp [handleRecord, tryBody, fullTrace, pushChunks, ondataavailable])⟩

/-- C7: the UI state is a variant with exactly the five cases idle,
recording, processing, done (url, size, fileName, durationMs) and
error (message); and in every run of the record handler the sequence
of states it sets, starting from idle, moves strictly forward along
the chain idle → recording → processing → done/error. -/
theorem ui_state_five_cases_linear :
    (∀ s : RecordingState,
      s = RecordingState.idle ∨
      (∃ t, s = RecordingState.recording t) ∨
      s = RecordingState.processing ∨
      (∃ url size fn d, s = RecordingState.done url size fn d) ∨
      (∃ m, s = RecordingState.error m)) ∧
    (∀ (env : Env) (cfg : Config),
      List.Chain' (fun a b => rank a < rank b)
        (RecordingState.idle :: stateSeq (handleRecord env cfg))) := by
  constructor
  · intro s
    cases s <;> simp
  · intro env cfg
    obtain ⟨sup, cp, ncm, cok, rct, rst, iso, sa, url, evs⟩ := env
    cases sup with
    | none => simp [handleRecord, tryBody, stateSeq, rank]
    | some mime =>
        cases cp <;> cases cok <;> cases rct <;> cases rst <;>
          simp [handleRecord, tryBody, fullTrace, stateSeq, rank]

/-- C3: whenever the environment makes the setup fail (no supported
MIME type, null canvas, missing `captureStream`) or the try body
raises an exception, the last state `handleRecord` sets is the error
variant carrying a message; `handleRecord` itself is a total function
into traces, so no exception escapes it. -/
theorem handleRecord_failures_set_error_state :
    ∀ (env : Env) (cfg : Config),
      (env.supported = none ∨ env.canvasPresent = false ∨ env.captureOk = false ∨
        (tryBody env cfg).2 ≠ none) →
      ∃ msg, lastState (handleRecord env cfg) = some (RecordingState.error msg) := by
  intro env cfg hfail
  obtain ⟨sup, cp, ncm, cok, rct, rst, iso, sa, url, evs⟩ := env
  cases sup with
  | none =>
      exact ⟨"MediaRecorder not supported in this browser.",
        by simp [handleRecord, tryBody, lastState]⟩
  | some mime =>
      cases cp <;> cases cok <;> cases rct <;> cases rst <;>
        simp [handleRecord, tryBody, fullTrace, lastState] at hfail ⊢

/-- C3 witness: a browser without a supported recording format ends in
the error state. -/
theorem handleRecord_failures_set_error_state_witness :
    ∃ msg,
      lastState
        (handleRecord
          ⟨none, true, none, true, none, none, "2026-01-01T00:00:00.000Z", 0, "blob:demo", []⟩
          ⟨"t", "s", 6, 30, Theme.electric⟩) =
      some (RecordingState.error msg) :=
  handleRecord_failures_set_error_state _ _ (Or.inl rfl)

/-- C4: whenever a run of `handleRecord` captures a stream, the very
first effect of the run set the canvas dimensions to exactly 1280 by
720, before the capture, and the capture uses the configured fps. -/
theorem canvas_sized_720p_before_capture :
    ∀ (env : Env) (cfg : Config) (f : Nat),
      Effect.captureStream f ∈ handleRecord env cfg →
      f = cfg.fps ∧
      ∃ rest, handleRecord env cfg =
        Effect.setCanvasSize 1280 720 :: Effect.captureStream cfg.fps :: rest := by
  intro env cfg f hmem
  obtain ⟨sup, cp, ncm, cok, rct, rst, iso, sa, url, evs⟩ := env
  cases sup with
  | none => simp [handleRecord, tryBody] at hmem
  | some mime =>
      cases cp <;> cases cok <;> cases rct <;> cases rst <;>
        simp [handleRecord, tryBody, fullTrace] at hmem
      all_goals subst hmem
      all_goals refine ⟨rfl, ?_⟩
      all_goals simp only [handleRecord, tryBody, fullTrace]
      all_goals exact ⟨_, rfl⟩

/-- C4 witness: a concrete successful run capturing at 30 fps. -/
theorem canvas_sized_720p_before_capture_witness :
    30 = (Config.mk "t" "s" 6 30 Theme.electric).fps ∧
    ∃ rest,
      handleRecord
        ⟨some "video/webm", true, none, true, none, none, "2026-01-01T00:00:00.000Z", 0,
          "blob:demo", []⟩
        ⟨"t", "s", 6, 30, Theme.electric⟩ =
      Effect.setCanvasSize 1280 720 ::
        Effect.captureStream (Config.mk "t" "s" 6 30 Theme.electric).fps :: rest :=
  canvas_sized_720p_before_capture _ _ 30
    (by simp [handleRecord, tryBody, fullTrace])

/-- C5: in every successful run, after the duration wait the trace
stops the recorder and the animation loop, sets the processing state,
and only then assembles the chunk buffer into the blob, whose object
URL and total size appear in the done state it sets last. -/
theorem stops_precede_blob_assembly :
    ∀ (env : Env) (cfg : Config) (mime : String),
      env.supported = some mime → env.canvasPresent = true → env.captureOk = true →
      env.recorderCtorThrow = none → env.recorderStartThrow = none →
      ∃ pre, handleRecord env cfg =
        pre ++
          [Effect.timerWait (durationMs cfg.durationSec),
           Effect.recorderStop,
           Effect.animStop,
           Effect.setState RecordingState.processing,
           Effect.makeBlob (pushChunks [] env.chunkEvents) mime,
           Effect.setState (RecordingState.done env.objectUrl
             (pushChunks [] env.chunkEvents).sum (mkFileName env.nowIso)
             (durationMs cfg.durationSec))] := by
  intro env cfg mime h1 h2 h3 h4 h5
  refine ⟨[Effect.setCanvasSize WIDTH HEIGHT,
           Effect.captureStream cfg.fps,
           Effect.clearChunks,
           Effect.newRecorder ⟨mime, 4000000⟩,
           Effect.setState (RecordingState.recording env.startedAt),
           Effect.recorderStart 100,
           Effect.animStart (durationMs cfg.durationSec)], ?_⟩
  rw [handleRecord_success env cfg mime h1 h2 h3 h4 h5]
  rfl

/-- C5 witness: the decomposition at a concrete successful run. -/
theorem stops_precede_blob_assembly_witness :
    ∃ pre,
      handleRecord
        ⟨some "video/webm", true, none, true, none, none, "2026-01-01T00:00:00.000Z", 0,
          "blob:demo", [0, 5, 0, 3]⟩
        ⟨"t", "s", 6, 30, Theme.electric⟩ =
      pre ++
        [Effect.timerWait (durationMs 6),
         Effect.recorderStop,
         Effect.animStop,
         Effect.setState RecordingState.processing,
         Effect.makeBlob (pushChunks [] [0, 5, 0, 3]) "video/webm",
         Effect.setState (RecordingState.done "blob:demo"
           (pushChunks [] [0, 5, 0, 3]).sum
           (mkFileName "2026-01-01T00:00:00.000Z") (durationMs 6))] :=
  stops_precede_blob_assembly _ _ "video/webm" rfl rfl rfl rfl rfl

/-- C6: in every successful run, the animation loop and the stop timer
both use the duration derived from `durationSec`, and the done state
set last reports exactly that duration. -/
theorem reported_duration_matches_requested :
    ∀ (env : Env) (cfg : Config) (mime : String),
      env.supported = some mime → env.canvasPresent = true → env.captureOk = true →
      env.recorderCtorThrow = none → env.recorderStartThrow = none →
      Effect.animStart (durationMs cfg.durationSec) ∈ handleRecord env cfg ∧
      Effect.timerWait (durationMs cfg.durationSec) ∈ handleRecord env cfg ∧
      lastState (handleRecord env cfg) =
        some (RecordingState.done env.objectUrl (pushChunks [] env.chunkEvents).sum
          (mkFileName env.nowIso) (durationMs cfg.durationSec)) := by
  intro env cfg mime h1 h2 h3 h4 h5
  rw [handleRecord_success env cfg mime h1 h2 h3 h4 h5]
  refine ⟨?_, ?_, rfl⟩ <;> simp [fullTrace]

/-- C6 witness: a concrete run requesting 6 seconds. -/
theorem reported_duration_matches_requested_witness :
    Effect.animStart (durationMs 6) ∈
      handleRecord
        ⟨some "video/webm", true, none, true, none, none, "2026-01-01T00:00:00.000Z", 0,
          "blob:demo", []⟩
        ⟨"t", "s", 6, 30, Theme.electric⟩ ∧
    Effect.timerWait (durationMs 6) ∈
      handleRecord
        ⟨some "video/webm", true, none, true, none, none, "2026-01-01T00:00:00.000Z", 0,
          "blob:demo", []⟩
        ⟨"t", "s", 6, 30, Theme.electric⟩ ∧
    lastState
        (handleRecord
          ⟨some "video/webm", true, none, true, none, none, "2026-01-01T00:00:00.000Z", 0,
            "blob:demo", []⟩
          ⟨"t", "s", 6, 30, Theme.electric⟩) =
      some (RecordingState.done "blob:demo" (pushChunks [] ([] : List Nat)).sum
        (mkFileName "2026-01-01T00:00:00.000Z") (durationMs 6)) :=
  reported_duration_matches_requested _ _ "video/webm" rfl rfl rfl rfl rfl

/-- C8: in every successful run the done state carries the file name
built from the run's ISO timestamp, that name starts with
"youtube-720p-" and ends with ".webm", and the rendered download
anchor uses exactly that file name (with the blob's object URL). -/
theorem filename_timestamp_derived_webm :
    ∀ (env : Env) (cfg : Config) (mime : String),
      env.supported = some mime → env.canvasPresent = true → env.captureOk = true →
      env.recorderCtorThrow = none → env.recorderStartThrow = none →
      ∃ st, lastState (handleRecord env cfg) = some st ∧
        st = RecordingState.done env.objectUrl (pushChunks [] env.chunkEvents).sum
          (mkFileName env.nowIso) (durationMs cfg.durationSec) ∧
        downloadAttr st = some (env.objectUrl, mkFileName env.nowIso) ∧
        "youtube-720p-".data <+: (mkFileName env.nowIso).data ∧
        ".webm".data <:+ (mkFileName env.nowIso).data := by
  intro env cfg mime h1 h2 h3 h4 h5
  rw [handleRecord_success env cfg mime h1 h2 h3 h4 h5]
  refine ⟨_, rfl, rfl, rfl, ?_, ?_⟩
  · unfold mkFileName
    rw [String.data_append, String.data_append, List.append_assoc]
    exact List.prefix_append _ _
  · unfold mkFileName
    rw [String.data_append]
    exact List.suffix_append _ _

/-- C8 witness: a concrete run with a concrete timestamp. -/
theorem filename_timestamp_derived_webm_witness :
    ∃ st,
      lastState
        (handleRecord
          ⟨some "video/webm", true, none, true, none, none, "2026-01-01T00:00:00.000Z", 0,
            "blob:demo", []⟩
          ⟨"t", "s", 6, 30, Theme.electric⟩) = some st ∧
      st = RecordingState.done "blob:demo" (pushChunks [] ([] : List Nat)).sum
        (mkFileName "2026-01-01T00:00:00.000Z") (durationMs 6) ∧
      downloadAttr st = some ("blob:demo", mkFileName "2026-01-01T00:00:00.000Z") ∧
      "youtube-720p-".data <+: (mkFileName "2026-01-01T00:00:00.000Z").data ∧
      ".webm".data <:+ (mkFileName "2026-01-01T00:00:00.000Z").data :=
  filename_timestamp_derived_webm _ _ "video/webm" rfl rfl rfl rfl rfl

/-- C1 counterexample: the video bitrate passed to the recorder is
4,000,000 bps for two runs whose user configurations differ in every
input (title, subtitle, duration, fps, theme): the bitrate is not
user-configurable. -/
theorem bitrate_not_user_configurable :
    recorderOptsOf
        (handleRecord
          ⟨some "video/webm", true, none, true, none, none, "2026-01-01T00:00:00.000Z", 0,
            "blob:demo", []⟩
          ⟨"A", "a", 6, 24, Theme.electric⟩) =
      some ⟨"video/webm", 4000000⟩ ∧
    recorderOptsOf
        (handleRecord
          ⟨some "video/webm", true, none, true, none, none, "2026-01-01T00:00:00.000Z", 0,
            "blob:demo", []⟩
          ⟨"B", "b", 60, 60, Theme.sunset⟩) =
      some ⟨"video/webm", 4000000⟩ ∧
    (Config.mk "A" "a" 6 24 Theme.electric) ≠ (Config.mk "B" "b" 60 60 Theme.sunset) := by
  refine ⟨?_, ?_, by decide⟩ <;>
    simp [handleRecord, tryBody, fullTrace, recorderOptsOf]

/-- C1 amended: in every successful run the stream capture uses the
user-selected fps (one of the select's options), while the encoding
bitrate is the fixed constant 4,000,000 bps for every recorder the
handler constructs. -/
theorem fps_configurable_bitrate_fixed :
    ∀ (env : Env) (cfg : Config) (mime : String),
      cfg.fps ∈ fpsOptions →
      env.supported = some mime → env.canvasPresent = true → env.captureOk = true →
      env.recorderCtorThrow = none → env.recorderStartThrow = none →
      Effect.captureStream cfg.fps ∈ handleRecord env cfg ∧
      recorderOptsOf (handleRecord env cfg) = some ⟨mime, 4000000⟩ ∧
      ∀ (env2 : Env) (cfg2 : Config) (opts : RecorderOptions),
        Effect.newRecorder opts ∈ handleRecord env2 cfg2 →
        opts.videoBitsPerSecond = 4000000 := by
  intro env cfg mime _ h1 h2 h3 h4 h5
  rw [handleRecord_success env cfg mime h1 h2 h3 h4 h5]
  refine ⟨by simp [fullTrace], by simp [fullTrace, recorderOptsOf], ?_⟩
  intro env2 cfg2 opts hmem
  obtain ⟨sup, cp, ncm, cok, rct, rst, iso, sa, url, evs⟩ := env2
  cases sup with
  | none => simp [handleRecord, tryBody] at hmem
  | some mime2 =>
      cases cp <;> cases cok <;> cases rct <;> cases rst <;>
        simp [handleRecord, tryBody, fullTrace] at hmem
      all_goals rw [hmem]

/-- C1 amended witness: a concrete run at 24 fps. -/
theorem fps_configurable_bitrate_fixed_witness :
    Effect.captureStream (Config.mk "t" "s" 6 24 Theme.electric).fps ∈
      handleRecord
        ⟨some "video/webm", true, none, true, none, none, "2026-01-01T00:00:00.000Z", 0,
          "blob:demo", []⟩
        ⟨"t", "s", 6, 24, Theme.electric⟩ ∧
    recorderOptsOf
        (handleRecord
          ⟨some "video/webm", true, none, true, none, none, "2026-01-01T00:00:00.000Z", 0,
            "blob:demo", []⟩
          ⟨"t", "s", 6, 24, Theme.electric⟩) =
      some ⟨"video/webm", 4000000⟩ ∧
    ∀ (env2 : Env) (cfg2 : Config) (opts : RecorderOptions),
      Effect.newRecorder opts ∈ handleRecord env2 cfg2 →
      opts.videoBitsPerSecond = 4000000 :=
  fps_configurable_bitrate_fixed _ _ "video/webm" (by decide) rfl rfl rfl rfl rfl

/-- C2 counterexample: with `durationSec = 100` the run records for
100000 ms, outside the duration input's permitted range of 2-60
seconds; and with `durationSec = 0` the clamp yields 1000 ms, below
the input's 2-second minimum.  The duration is not validated against
the permitted range before use. -/
theorem duration_not_range_validated :
    durationMs 100 = 100000 ∧
    Effect.timerWait 100000 ∈
      handleRecord
        ⟨some "video/webm", true, none, true, none, none, "2026-01-01T00:00:00.000Z", 0,
          "blob:demo", []⟩
        ⟨"t", "s", 100, 30, Theme.electric⟩ ∧
    Effect.animStart 100000 ∈
      handleRecord
        ⟨some "video/webm", true, none, true, none, none, "2026-01-01T00:00:00.000Z", 0,
          "blob:demo", []⟩
        ⟨"t", "s", 100, 30, Theme.electric⟩ ∧
    ¬((durationInputMin : ℤ) * 1000 ≤ 100000 ∧ (100000 : ℤ) ≤ (durationInputMax : ℤ) * 1000) ∧
    durationMs 0 = 1000 ∧
    ¬((durationInputMin : ℤ) * 1000 ≤ durationMs 0) := by
  have h100 : durationMs 100 = 100000 := by
    unfold durationMs
    norm_num [round_eq]
  have h0 : durationMs 0 = 1000 := by
    unfold durationMs
    norm_num [round_eq]
  refine ⟨h100, ?_, ?_, ?_, h0, ?_⟩
  · rw [← h100]
    simp [handleRecord, tryBody, fullTrace]
  · rw [← h100]
    simp [handleRecord, tryBody, fullTrace]
  · simp [durationInputMin, durationInputMax]
  · rw [h0]
    simp [durationInputMin]

/-- C2 amended: the duration used for the recording is
`max 1000 (round (durationSec * 1000))`: it is clamped from below to
1000 ms before the recorder and animation are started, but is not
validated against the duration input's 2-60 second range; the animation
loop and the stop timer both receive this clamped value. -/
theorem duration_clamped_below_before_use :
    (∀ d : ℚ, durationMs d = max 1000 (round (d * 1000)) ∧ (1000 : ℤ) ≤ durationMs d) ∧
    (∀ (env : Env) (cfg : Config) (mime : String),
      env.supported = some mime → env.canvasPresent = true → env.captureOk = true →
      env.recorderCtorThrow = none → env.recorderStartThrow = none →
      Effect.animStart (durationMs cfg.durationSec) ∈ handleRecord env cfg ∧
      Effect.timerWait (durationMs cfg.durationSec) ∈ handleRecord env cfg) := by
  constructor
  · intro d
    exact ⟨rfl, le_max_left _ _⟩
  · intro env cfg mime h1 h2 h3 h4 h5
    rw [handleRecord_success env cfg mime h1 h2 h3 h4 h5]
    constructor <;> simp [fullTrace]

/-- C2 amended witness: the clamp at a concrete rational and a concrete
successful run. -/
theorem duration_clamped_below_before_use_witness :
    (1000 : ℤ) ≤ durationMs (5 / 2) ∧
    Effect.animStart (durationMs 6) ∈
      handleRecord
        ⟨some "video/webm", true, none, true, none, none, "2026-01-01T00:00:00.000Z", 0,
          "blob:demo", []⟩
        ⟨"t", "s", 6, 30, Theme.electric⟩ :=
  ⟨(duration_clamped_below_before_use.1 (5 / 2)).2,
   (duration_clamped_below_before_use.2 _ _ "video/webm" rfl rfl rfl rfl rfl).1⟩

end CanvasRec
